import Mathlib

/-!
# Verification of the synctalk user controller

Shallow embedding of `src/server/src/controller/user.js` (the auth and
social-graph core of the synctalk application) and proofs about it.

Modelling conventions:
* MongoDB ObjectIds are modelled as `Nat`.  The Mongoose schemas for the
  `User`, `Followers`, `Following` and `Post` models are not part of the
  controller file; where the controller relies on Mongoose behaviour
  (ObjectId/string casting inside typed arrays, lazily created documents)
  the effect is modelled directly on the id type.
* The document store is a record of association lists; a key that is
  absent from the `followers`/`following` tables models a missing
  `Followers`/`Following` document.
* Express request fields that may be absent are modelled as `Option`, or
  as `String` with `""` standing for a missing field where JavaScript
  truthiness (`!field`) conflates the two.
* Handlers answer through `res.status(..).json(..)` or by throwing a
  `CustomError {status, message}` that the error middleware turns into the
  same kind of response; both paths are modelled as an error value
  carrying the HTTP status and message.  A JavaScript `ReferenceError`
  escaping a handler is modelled as its own error constructor.
-/

/-- A stored `User` document: identity, display name, username, email,
stored (hashed) password, profile picture reference. -/
structure UserDoc where
  id : Nat
  name : String
  username : String
  email : String
  password : String
  profilePicture : String
deriving Repr, DecidableEq

/-- A user document as serialized in responses: `password` and `__v`
stripped (`select("-password -__v")` / rest-destructuring drop). -/
structure SanitizedUser where
  id : Nat
  name : String
  username : String
  email : String
  profilePicture : String
deriving Repr, DecidableEq

/-- Modelled from the spec: a `Post` is authored content, consumed but not
mutated by this core; only the author link matters here. -/
structure PostDoc where
  id : Nat
  authorId : Nat
deriving Repr, DecidableEq

/-- The document store.  `followers` maps a user id to the `followers`
array of that user's `Followers` document; `following` maps a user id to
the `following` array of that user's `Following` document.  A key missing
from those tables is a document that does not exist yet (the lists are
created lazily). -/
structure DB where
  users : List UserDoc
  followers : List (Nat × List Nat)
  following : List (Nat × List Nat)
  posts : List PostDoc
deriving Repr, DecidableEq

/-- An error escaping a handler: either a `CustomError` (or a direct
`res.status(s).json(...)` error response) carrying an HTTP status and a
message, or a JavaScript `ReferenceError`. -/
inductive JsError where
  | custom (status : Nat) (message : String)
  | referenceError (message : String)
deriving Repr, DecidableEq

/-- `findOne` on a keyed table: first entry with the given key. -/
def lookupList (l : List (Nat × List Nat)) (k : Nat) : Option (List Nat) :=
  match l with
  | [] => none
  | (k', v) :: rest => if k = k' then some v else lookupList rest k

/-- `save` of a keyed document: replace the entry for `k`, or append it if
the document did not exist yet. -/
def setList (l : List (Nat × List Nat)) (k : Nat) (v : List Nat) : List (Nat × List Nat) :=
  match l with
  | [] => [(k, v)]
  | (k', v') :: rest => if k = k' then (k, v) :: rest else (k', v') :: setList rest k v

/-- `password` and `__v` removed before sending a user in a response. -/
def sanitizeUser (u : UserDoc) : SanitizedUser :=
  ⟨u.id, u.name, u.username, u.email, u.profilePicture⟩

/-- The `following` array of a user's `Following` document, an empty list
when the document does not exist. -/
def followingOf (db : DB) (a : Nat) : List Nat :=
  (lookupList db.following a).getD []

/-- The `followers` array of a user's `Followers` document, an empty list
when the document does not exist. -/
def followersOf (db : DB) (a : Nat) : List Nat :=
  (lookupList db.followers a).getD []

/-- The §3 invariant: B is in A's following list iff A is in B's follower
list, for every pair. -/
def Consistent (db : DB) : Prop :=
  ∀ a b : Nat, b ∈ followingOf db a ↔ a ∈ followersOf db b

/-- `followUser` (lines 190–247): the toggle-follow handler.
`actorId` is `req.user._id`, `targetId` is `req.params.userId`.
Rejects self-follow with a direct 400 response, rejects a missing target
with a 404 `CustomError`, otherwise loads or lazily creates both list
documents and either removes the pair of edges (already following) or
appends them, saving both documents. -/
def followUser (db : DB) (actorId targetId : Nat) : Except JsError (DB × String) :=
  if actorId = targetId then
    .error (.custom 400 "You cannot follow yourself.")
  else
    match db.users.find? (fun u => u.id == targetId) with
    | none => .error (.custom 404 "User not found")
    | some _ =>
      let followerList := followersOf db targetId
      let followingList := followingOf db actorId
      if targetId ∈ followingList then
        .ok ({ db with
                following := setList db.following actorId
                  (followingList.filter (fun id => id != targetId)),
                followers := setList db.followers targetId
                  (followerList.filter (fun id => id != actorId)) },
             "User unfollowed successfully")
      else
        .ok ({ db with
                following := setList db.following actorId (followingList ++ [targetId]),
                followers := setList db.followers targetId (followerList ++ [actorId]) },
             "User followed successfully")

/-- One serial toggle request: on an error response the store is
unchanged. -/
def applyToggle (db : DB) (p : Nat × Nat) : DB :=
  match followUser db p.1 p.2 with
  | .ok (db', _) => db'
  | .error _ => db

/-- A serial sequence of toggle requests. -/
def applyToggles (db : DB) (ps : List (Nat × Nat)) : DB :=
  ps.foldl applyToggle db

theorem lookupList_setList (l : List (Nat × List Nat)) (k : Nat) (v : List Nat) (k' : Nat) :
    lookupList (setList l k v) k' = if k' = k then some v else lookupList l k' := by
  induction l with
  | nil =>
    by_cases h : k' = k <;> simp [setList, lookupList, h]
  | cons hd tl ih =>
    obtain ⟨k₀, v₀⟩ := hd
    by_cases h0 : k = k₀
    · subst h0
      by_cases h : k' = k <;> simp [setList, lookupList, h]
    · by_cases h1 : k' = k₀
      · have h2 : ¬ k' = k := fun hc => h0 (hc.symm.trans h1)
        have h3 : ¬ k₀ = k := fun hc => h0 hc.symm
        simp [setList, lookupList, h0, h1, h2, h3]
      · by_cases h : k' = k
        · subst h
          simp [setList, lookupList, h0, h1, ih]
        · simp [setList, lookupList, h0, h1, h, ih]

theorem followingOf_update (db : DB) (a ta : Nat) (vg vr : List Nat) (x : Nat) :
    followingOf { db with following := setList db.following a vg,
                          followers := setList db.followers ta vr } x
      = if x = a then vg else followingOf db x := by
  simp [followingOf, lookupList_setList]
  by_cases hx : x = a <;> simp [hx]

theorem followersOf_update (db : DB) (a ta : Nat) (vg vr : List Nat) (y : Nat) :
    followersOf { db with following := setList db.following a vg,
                          followers := setList db.followers ta vr } y
      = if y = ta then vr else followersOf db y := by
  simp [followersOf, lookupList_setList]
  by_cases hy : y = ta <;> simp [hy]

theorem followUser_ok_consistent {db : DB} {A B : Nat} {db' : DB} {m : String}
    (h : Consistent db) (hok : followUser db A B = .ok (db', m)) : Consistent db' := by
  unfold followUser at hok
  by_cases hAB : A = B
  · simp [hAB] at hok
  · rw [if_neg hAB] at hok
    cases hfind : db.users.find? (fun u => u.id == B) with
    | none => rw [hfind] at hok; exact absurd hok (by simp)
    | some u =>
      rw [hfind] at hok
      simp only at hok
      by_cases hmem : B ∈ followingOf db A
      · rw [if_pos hmem] at hok
        simp only [Except.ok.injEq, Prod.mk.injEq] at hok
        obtain ⟨hdb, -⟩ := hok
        subst hdb
        intro x y
        rw [followingOf_update, followersOf_update]
        by_cases hx : x = A
        · by_cases hy : y = B
          · simp [hx, hy, List.mem_filter, bne_iff_ne]
          · simpa [hx, hy, List.mem_filter, bne_iff_ne] using h A y
        · by_cases hy : y = B
          · simpa [hx, hy, List.mem_filter, bne_iff_ne] using h x B
          · simpa [hx, hy] using h x y
      · rw [if_neg hmem] at hok
        simp only [Except.ok.injEq, Prod.mk.injEq] at hok
        obtain ⟨hdb, -⟩ := hok
        subst hdb
        intro x y
        rw [followingOf_update, followersOf_update]
        by_cases hx : x = A
        · by_cases hy : y = B
          · simp [hx, hy]
          · simpa [hx, hy] using h A y
        · by_cases hy : y = B
          · simpa [hx, hy] using h x B
          · simpa [hx, hy] using h x y

theorem applyToggles_consistent (db : DB) (h : Consistent db) (ps : List (Nat × Nat)) :
    Consistent (applyToggles db ps) := by
  induction ps generalizing db with
  | nil => exact h
  | cons p ps ih =>
    simp only [applyToggles, List.foldl_cons]
    have hstep : Consistent (applyToggle db p) := by
      unfold applyToggle
      cases hf : followUser db p.1 p.2 with
      | ok r =>
        obtain ⟨db', m⟩ := r
        exact followUser_ok_consistent h hf
      | error e => exact h
    exact ih (applyToggle db p) hstep

/-- C1: for every pair of distinct users A and B, after a successful
`toggleFollow(A, B)`, B's id is in A's following set iff A's id is in B's
follower set, and this bidirectional consistency is preserved by any
serial sequence of `toggleFollow` operations (starting from any
consistent store). -/
theorem toggleFollow_bidirectional_consistency (db : DB) (h : Consistent db)
    (ps : List (Nat × Nat)) :
    Consistent (applyToggles db ps) ∧
    ∀ A B db' m, followUser (applyToggles db ps) A B = Except.ok (db', m) →
      (B ∈ followingOf db' A ↔ A ∈ followersOf db' B) := by
  have hc := applyToggles_consistent db h ps
  exact ⟨hc, fun A B db' m hok => followUser_ok_consistent hc hok A B⟩

/-- A two-user store with no follow documents yet. -/
def dbPair : DB :=
  ⟨[⟨1, "Ann", "ann", "ann@x.com", "h1", "p1"⟩,
    ⟨2, "Bob", "bob", "bob@x.com", "h2", "p2"⟩],
   [], [], []⟩

theorem dbPair_consistent : Consistent dbPair := by
  intro a b
  simp [dbPair, followingOf, followersOf, lookupList]

/-- Witness for C1: the consistency hypothesis holds for a concrete
two-user store and is preserved across a concrete toggle sequence. -/
theorem toggleFollow_bidirectional_consistency_witness :
    Consistent dbPair ∧
      Consistent (applyToggles dbPair [(1, 2), (2, 1), (1, 2)]) :=
  ⟨dbPair_consistent,
   (toggleFollow_bidirectional_consistency dbPair dbPair_consistent
     [(1, 2), (2, 1), (1, 2)]).1⟩

/-- C2: for distinct users A and B where B exists and A does not initially
follow B, toggling twice returns the graph to the not-following state:
B is absent from A's following list and A is absent from B's follower
list. -/
theorem double_toggle_returns_to_not_following (db : DB) (A B : Nat)
    (hne : A ≠ B)
    (hB : (db.users.find? (fun u => u.id == B)).isSome)
    (hnf : B ∉ followingOf db A) :
    ∃ db₁ m₁ db₂ m₂,
      followUser db A B = .ok (db₁, m₁) ∧
      followUser db₁ A B = .ok (db₂, m₂) ∧
      B ∉ followingOf db₂ A ∧ A ∉ followersOf db₂ B := by
  obtain ⟨u, hfind⟩ := Option.isSome_iff_exists.mp hB
  set db₁ : DB := { db with
    following := setList db.following A (followingOf db A ++ [B]),
    followers := setList db.followers B (followersOf db B ++ [A]) } with hdb₁
  have h1 : followUser db A B = Except.ok (db₁, "User followed successfully") := by
    simp [followUser, hne, hfind, hnf, hdb₁]
  have husers : db₁.users = db.users := by rw [hdb₁]
  have hf1 : followingOf db₁ A = followingOf db A ++ [B] := by
    rw [hdb₁, followingOf_update]; simp
  have hmem1 : B ∈ followingOf db₁ A := by rw [hf1]; simp
  have h2 : followUser db₁ A B = Except.ok
      ({ db₁ with
          following := setList db₁.following A
            ((followingOf db₁ A).filter (fun id => id != B)),
          followers := setList db₁.followers B
            ((followersOf db₁ B).filter (fun id => id != A)) },
       "User unfollowed successfully") := by
    simp only [followUser, if_neg hne, husers, hfind, if_pos hmem1]
  refine ⟨db₁, _, _, _, h1, h2, ?_, ?_⟩
  · rw [followingOf_update]
    simp [List.mem_filter]
  · rw [followersOf_update]
    simp [List.mem_filter]

/-- Witness for C2 on a concrete two-user store. -/
theorem double_toggle_returns_to_not_following_witness :
    2 ∉ followingOf dbPair 1 ∧
    (∃ db₁ m₁ db₂ m₂,
      followUser dbPair 1 2 = .ok (db₁, m₁) ∧
      followUser db₁ 1 2 = .ok (db₂, m₂) ∧
      2 ∉ followingOf db₂ 1 ∧ 1 ∉ followersOf db₂ 2) :=
  ⟨by decide,
   double_toggle_returns_to_not_following dbPair 1 2 (by decide) (by decide)
     (by decide)⟩

/-- C7: a toggle-follow request where the actor targets themselves always
fails with the 400 validation response, and the store is unchanged. -/
theorem toggleFollow_self_validation (db : DB) (a : Nat) :
    followUser db a a = .error (.custom 400 "You cannot follow yourself.") ∧
    applyToggle db (a, a) = db := by
  constructor
  · simp [followUser]
  · simp [applyToggle, followUser]

/-- C9: the self-follow check runs before the target-existence lookup:
even when no user with id `a` exists, `toggleFollow(a, a)` answers the 400
self-follow error, not a 404. -/
theorem toggleFollow_self_check_precedes_lookup (db : DB) (a : Nat)
    (_habsent : db.users.find? (fun u => u.id == a) = none) :
    followUser db a a = .error (.custom 400 "You cannot follow yourself.") := by
  simp [followUser]

/-- Witness for C9: a store with no users at all. -/
theorem toggleFollow_self_check_precedes_lookup_witness :
    (DB.mk [] [] [] []).users.find? (fun u => u.id == 5) = none ∧
    followUser (DB.mk [] [] [] []) 5 5
      = .error (.custom 400 "You cannot follow yourself.") :=
  ⟨rfl, toggleFollow_self_check_precedes_lookup (DB.mk [] [] [] []) 5 rfl⟩

/-- JavaScript `String.prototype.toLowerCase`, character by character
(structural recursion over the character list so that concrete instances
reduce). -/
def jsToLowerCase (s : String) : String :=
  ⟨s.data.map Char.toLower⟩

/-- The regex test `/\s/.test(s)`: does the string contain whitespace? -/
def jsTestWhitespace (s : String) : Bool :=
  s.data.any Char.isWhitespace

/-- Modelled from the spec: `getGravatar` lives in `lib/util` (not under
`src/`); the spec says registration "derives a deterministic avatar
reference from the email", so it is modelled as a deterministic function
of the email. -/
def getGravatar (email : String) : String :=
  "gravatar:" ++ email

/-- Modelled from the spec: the Mongoose `User` model (not under `src/`)
"stores password as a salted hash (never plaintext)" on save; modelled as
a salt-tagged encoding whose output is always longer than, hence never
equal to, the plaintext. -/
def hashPassword (salt pw : String) : String :=
  "bcrypt$" ++ salt ++ "$" ++ pw

/-- Modelled from the bcryptjs library: `bcrypt.compare(plain, stored)`
succeeds exactly when `stored` is a hash derived from `plain` (at the
granularity of the `hashPassword` model). -/
def bcryptCompare (plain stored : String) : Bool :=
  "bcrypt$".data.isPrefixOf stored.data && ("$" ++ plain).data.isSuffixOf stored.data

/-- `registerUser` (lines 9–65).  Absent body fields are modelled as `""`
(JavaScript `!field` conflates the two).  `salt` is the salt the User
model picks on save; `newId` is the ObjectId MongoDB assigns. -/
def registerUser (db : DB) (salt : String) (name username password email : String)
    (newId : Nat) : Except JsError (DB × SanitizedUser) :=
  if name = "" ∨ username = "" ∨ password = "" ∨ email = "" then
    .error (.custom 400 "Fields are required (name, username, password, email)")
  else if username ≠ jsToLowerCase username ∨ jsTestWhitespace username then
    .error (.custom 400 "Username must be lowercase and cannot contain spaces")
  else
    match db.users.find? (fun u => u.username == username || u.email == email) with
    | some _ => .error (.custom 409 "Username or email already exists")
    | none =>
      let savedUser : UserDoc :=
        ⟨newId, name, username, email, hashPassword salt password, getGravatar email⟩
      .ok ({ db with
              users := db.users ++ [savedUser],
              followers := setList db.followers newId [],
              following := setList db.following newId [] },
           sanitizeUser savedUser)

/-- The record `jwt.sign` produces: what is signed (the payload
`{user: {id, username}}`) and the `expiresIn` option as passed
(`"300h"`). -/
structure SignedToken where
  payloadUserId : Nat
  payloadUsername : String
  expiresIn : String
deriving Repr, DecidableEq

/-- Digit-list parsing helper for `expiresInHours`. -/
def parseNatAux : List Char → Nat → Option Nat
  | [], acc => some acc
  | c :: cs, acc =>
    if c.isDigit then parseNatAux cs (acc * 10 + (c.toNat - 48)) else none

/-- Reading an `expiresIn` duration given in hours, e.g. `"300h"` is 300
hours. -/
def expiresInHours (s : String) : Option Nat :=
  match s.data.getLast? with
  | some 'h' =>
    if s.data.dropLast = [] then none else parseNatAux s.data.dropLast 0
  | _ => none

/-- `loginUser` (lines 67–109): 404 on unknown username, 401 on failed
hash comparison, otherwise the sanitized user together with a token
signed over `{user: {id: user._id, username: user.username}}` with
`expiresIn: "300h"`. -/
def loginUser (db : DB) (username password : String) :
    Except JsError (SanitizedUser × SignedToken) :=
  match db.users.find? (fun u => u.username == username) with
  | none => .error (.custom 404 "User not found")
  | some user =>
    if bcryptCompare password user.password then
      .ok (sanitizeUser user, ⟨user.id, user.username, "300h"⟩)
    else
      .error (.custom 401 "Invalid credentials")

/-- A registered user "jon" with email "jon@x.com". -/
def jonUser : UserDoc :=
  ⟨0, "Jon", "jon", "jon@x.com", hashPassword "s" "pw123", "p0"⟩

/-- A store holding one registered user "jon" with email "jon@x.com". -/
def dbJon : DB :=
  ⟨[jonUser], [], [], []⟩

/-- Counterexample to C4 as stated: the submitted email "jon@x.com"
already belongs to the stored user and the submitted username "JON"
differs from the stored "jon" only in casing, yet registration fails with
the 400 validation error (uppercase username), not with the 409
ConflictError the claim requires. -/
theorem register_duplicate_casing_counterexample :
    (dbJon.users.find? (fun u => u.email == "jon@x.com")).isSome ∧
    registerUser dbJon "t" "Ann" "JON" "pw" "jon@x.com" 1
      = .error (.custom 400 "Username must be lowercase and cannot contain spaces") :=
  ⟨rfl, rfl⟩

/-- C4 (amended): a registration request with all four fields present and
a username that passes validation (lowercase, no whitespace) fails with
ConflictError 409 whenever its username or email already belongs to an
existing user; a submitted username with uppercase characters is instead
rejected earlier by the 400 validation check, so a casing difference
never reaches the conflict check. -/
theorem register_duplicate_conflict (db : DB) (salt name username password email : String)
    (newId : Nat)
    (hname : name ≠ "") (huser : username ≠ "") (hpw : password ≠ "") (hemail : email ≠ "")
    (hlower : username = jsToLowerCase username)
    (hws : jsTestWhitespace username = false)
    (hdup : ∃ u ∈ db.users, u.username = username ∨ u.email = email) :
    registerUser db salt name username password email newId
      = .error (.custom 409 "Username or email already exists") := by
  unfold registerUser
  rw [if_neg (by simp [hname, huser, hpw, hemail]),
      if_neg (by simp [hlower.symm, hws])]
  cases hfind : db.users.find? (fun u => u.username == username || u.email == email) with
  | some u => rfl
  | none =>
    exfalso
    obtain ⟨u, hu, hcase⟩ := hdup
    have hnone := List.find?_eq_none.mp hfind u hu
    simp only [Bool.or_eq_true, beq_iff_eq, not_or] at hnone
    cases hcase with
    | inl h => exact hnone.1 h
    | inr h => exact hnone.2 h

/-- Witness for C4 (amended): duplicating the stored email with a valid
lowercase username yields the 409 conflict. -/
theorem register_duplicate_conflict_witness :
    (∃ u ∈ dbJon.users, u.username = "ann" ∨ u.email = "jon@x.com") ∧
    registerUser dbJon "t" "Ann" "ann" "pw" "jon@x.com" 1
      = .error (.custom 409 "Username or email already exists") :=
  ⟨⟨⟨0, "Jon", "jon", "jon@x.com", hashPassword "s" "pw123", "p0"⟩, by decide, by decide⟩,
   register_duplicate_conflict dbJon "t" "Ann" "ann" "pw" "jon@x.com" 1
     (by decide) (by decide) (by decide) (by decide) (by decide) (by decide)
     ⟨⟨0, "Jon", "jon", "jon@x.com", hashPassword "s" "pw123", "p0"⟩, by decide, by decide⟩⟩

/-- C5: for every valid registration input (all four fields present,
lowercase whitespace-free username, fresh username and email),
registration succeeds, the new user is stored, and the stored password is
never the submitted plaintext. -/
theorem register_fresh_succeeds (db : DB) (salt name username password email : String)
    (newId : Nat)
    (hname : name ≠ "") (huser : username ≠ "") (hpw : password ≠ "") (hemail : email ≠ "")
    (hlower : username = jsToLowerCase username)
    (hws : jsTestWhitespace username = false)
    (hfresh : ∀ u ∈ db.users, u.username ≠ username ∧ u.email ≠ email) :
    ∃ db' resp,
      registerUser db salt name username password email newId = .ok (db', resp) ∧
      db'.users = db.users ++
        [⟨newId, name, username, email, hashPassword salt password, getGravatar email⟩] ∧
      hashPassword salt password ≠ password := by
  have hfind : db.users.find? (fun u => u.username == username || u.email == email)
      = none := by
    rw [List.find?_eq_none]
    intro u hu
    obtain ⟨h1, h2⟩ := hfresh u hu
    simp [h1, h2]
  refine ⟨{ db with
            users := db.users ++
              [⟨newId, name, username, email, hashPassword salt password,
                getGravatar email⟩],
            followers := setList db.followers newId [],
            following := setList db.following newId [] },
          sanitizeUser ⟨newId, name, username, email, hashPassword salt password,
            getGravatar email⟩, ?_, rfl, ?_⟩
  · unfold registerUser
    rw [if_neg (by simp [hname, huser, hpw, hemail]),
        if_neg (by simp [hlower.symm, hws]), hfind]
  · intro hEq
    have hlen := congrArg String.length hEq
    have h7 : ("bcrypt$" : String).length = 7 := rfl
    have h1 : ("$" : String).length = 1 := rfl
    simp only [hashPassword, String.length_append, h7, h1] at hlen
    omega

/-- Witness for C5: a fresh valid registration against the one-user
store. -/
theorem register_fresh_succeeds_witness :
    ("ann" = jsToLowerCase "ann") ∧
    (∃ db' resp,
      registerUser dbJon "t" "Ann" "ann" "pw" "ann@x.com" 1 = .ok (db', resp) ∧
      db'.users = dbJon.users ++
        [⟨1, "Ann", "ann", "ann@x.com", hashPassword "t" "pw", getGravatar "ann@x.com"⟩] ∧
      hashPassword "t" "pw" ≠ "pw") :=
  ⟨by decide,
   register_fresh_succeeds dbJon "t" "Ann" "ann" "pw" "ann@x.com" 1
     (by decide) (by decide) (by decide) (by decide) (by decide) (by decide)
     (by decide)⟩

/-- C8: every successful login returns a token signed over the payload
`{user: {id, username}}` holding exactly the logged-in user's id and
username, with `expiresIn: "300h"`, i.e. a 300-hour expiry. -/
theorem login_token_payload_and_expiry (db : DB) (username password : String)
    (resp : SanitizedUser × SignedToken)
    (hok : loginUser db username password = .ok resp) :
    ∃ u, db.users.find? (fun x => x.username == username) = some u ∧
      resp.1 = sanitizeUser u ∧
      resp.2.payloadUserId = u.id ∧
      resp.2.payloadUsername = u.username ∧
      resp.2.expiresIn = "300h" ∧
      expiresInHours resp.2.expiresIn = some 300 := by
  unfold loginUser at hok
  cases hfind : db.users.find? (fun x => x.username == username) with
  | none => rw [hfind] at hok; exact absurd hok (by simp)
  | some u =>
    rw [hfind] at hok
    cases hcmp : bcryptCompare password u.password with
    | false => simp [hcmp] at hok
    | true =>
      simp only [hcmp] at hok
      rw [if_pos trivial] at hok
      injection hok with h
      subst h
      exact ⟨u, rfl, rfl, rfl, rfl, rfl,
        (by decide : expiresInHours "300h" = some 300)⟩

/-- Witness for C8: the stored user "jon" logs in with the correct
password. -/
theorem login_token_payload_and_expiry_witness :
    loginUser dbJon "jon" "pw123"
      = .ok (⟨0, "Jon", "jon", "jon@x.com", "p0"⟩, ⟨0, "jon", "300h"⟩) ∧
    (∃ u, dbJon.users.find? (fun x => x.username == "jon") = some u ∧
      (⟨0, "Jon", "jon", "jon@x.com", "p0"⟩ : SanitizedUser) = sanitizeUser u ∧
      (⟨0, "jon", "300h"⟩ : SignedToken).payloadUserId = u.id ∧
      (⟨0, "jon", "300h"⟩ : SignedToken).payloadUsername = u.username ∧
      (⟨0, "jon", "300h"⟩ : SignedToken).expiresIn = "300h" ∧
      expiresInHours (⟨0, "jon", "300h"⟩ : SignedToken).expiresIn = some 300) :=
  ⟨rfl,
   login_token_payload_and_expiry dbJon "jon" "pw123"
     (⟨0, "Jon", "jon", "jon@x.com", "p0"⟩, ⟨0, "jon", "300h"⟩) rfl⟩

/-- `updateUser` (lines 112–139): looks up the authenticated user (404
when absent), applies the in-memory updates for the uploaded file and the
provided body fields, and then evaluates `if (password)` — but `password`
is never destructured from `req.body`, so the handler throws
`ReferenceError: password is not defined` before `user.save()` runs: the
in-memory changes are discarded and the store is never written.  Body
fields are `Option`s; `some ""` is falsy like an absent field. -/
def updateUser (db : DB) (callerId : Nat) (file : Option String)
    (name username email : Option String) : Except JsError (DB × SanitizedUser) :=
  match db.users.find? (fun u => u.id == callerId) with
  | none => .error (.custom 404 "User not found")
  | some user =>
    let user := match file with
      | some path => { user with profilePicture := path }
      | none => user
    let user := match name with
      | some n => if n ≠ "" then { user with name := n } else user
      | none => user
    let user := match username with
      | some n => if n ≠ "" then { user with username := n } else user
      | none => user
    let user := match email with
      | some n => if n ≠ "" then { user with email := n } else user
      | none => user
    -- `if (password)` reads the undeclared identifier `password`; the
    -- mutated document `user` is dropped and the error is forwarded.
    let _mutated := user
    .error (.referenceError "password is not defined")

/-- Modelled from the spec: `user.getPosts()` is a `User` model method not
under `src/`; a `Post` is "authored content ... consumed, not mutated", so
the call is modelled as the user's authored posts. -/
def getPosts (db : DB) (u : UserDoc) : List PostDoc :=
  db.posts.filter (fun p => p.authorId == u.id)

/-- Does `pat` occur as a contiguous run inside the second list? -/
def containsAux (pat : List Char) : List Char → Bool
  | [] => pat.isEmpty
  | c :: cs => pat.isPrefixOf (c :: cs) || containsAux pat cs

/-- The `$regex: username, $options: "i"` search condition: the submitted
pattern occurs in the stored username, case-insensitively (regex
metacharacters are not modelled; the claims do not depend on them). -/
def containsCI (s pat : String) : Bool :=
  containsAux (jsToLowerCase pat).data (jsToLowerCase s).data

/-- The username-search query: users whose username matches the pattern,
excluding the caller (`_id: { $ne: req.user._id }`). -/
def searchMatches (db : DB) (caller : Nat) (pat : String) : List UserDoc :=
  db.users.filter (fun u => containsCI u.username pat && u.id != caller)

/-- The all-users query, excluding the caller. -/
def allExcept (db : DB) (caller : Nat) : List UserDoc :=
  db.users.filter (fun u => u.id != caller)

/-- A `findUsers` response body: an error message object, a single user
augmented with following/followers/posts, or a list of users. -/
inductive FindBody where
  | message (m : String)
  | single (user : SanitizedUser) (following followers : List Nat)
      (posts : List PostDoc)
  | many (users : List SanitizedUser)
deriving Repr, DecidableEq

/-- `findUsers` (lines 142–188): three modes keyed on which query
parameters are present (an absent or empty query parameter is modelled as
`none`).  Id mode 404s when the user is absent and otherwise augments the
user with the follower/following arrays (empty when the documents are
missing) and posts; username mode 404s when no user matches; the
all-users mode always answers 200. -/
def findUsers (db : DB) (caller : Nat) (userId : Option Nat)
    (username : Option String) : Nat × FindBody :=
  match userId with
  | some uid =>
    match db.users.find? (fun u => u.id == uid) with
    | none => (404, .message "User not found")
    | some user =>
      (200, .single (sanitizeUser user) (followingOf db uid) (followersOf db uid)
        (getPosts db user))
  | none =>
    match username with
    | some pat =>
      let users := searchMatches db caller pat
      if users.length = 0 then (404, .message "No users found")
      else (200, .many (users.map sanitizeUser))
    | none => (200, .many ((allExcept db caller).map sanitizeUser))

/-- C3 evidence: on the one-user store, an update request for the existing
user that provides only a new name does not answer 200 with the fields
applied — the handler throws `ReferenceError` (the undeclared `password`)
before `user.save()`, so no field is persisted; for an absent user id the
handler does fail with the 404 the claim states. -/
theorem updateUser_reference_error :
    updateUser dbJon 0 none (some "NewName") none none
      = .error (.referenceError "password is not defined") ∧
    updateUser dbJon 99 none (some "NewName") none none
      = .error (.custom 404 "User not found") :=
  ⟨rfl, rfl⟩

/-- Counterexample to C6 as stated: with only the caller in the store, a
username search that matches nothing answers 404 "No users found" — not
the empty 200 list the claim requires of the non-id modes. -/
theorem find_username_nomatch_counterexample :
    searchMatches dbJon 0 "zzz" = [] ∧
    findUsers dbJon 0 none (some "zzz") = (404, .message "No users found") :=
  ⟨rfl, rfl⟩

/-- C6 (amended): both the lookup-by-id mode and the username-search mode
fail with NotFoundError (404) when nothing matches; only the all-users
mode answers 200 with a (possibly empty) list. -/
theorem find_nomatch_statuses (db : DB) (caller uid : Nat) (pat : String)
    (hid : db.users.find? (fun u => u.id == uid) = none)
    (hsearch : searchMatches db caller pat = []) :
    findUsers db caller (some uid) none = (404, .message "User not found") ∧
    findUsers db caller none (some pat) = (404, .message "No users found") ∧
    findUsers db caller none none
      = (200, .many ((allExcept db caller).map sanitizeUser)) := by
  refine ⟨?_, ?_, rfl⟩
  · simp [findUsers, hid]
  · simp [findUsers, hsearch]

/-- Witness for C6 (amended) on the one-user store: id 99 is absent,
"zzz" matches nobody, and the all-users mode (the caller being the only
user) answers 200 with the empty list. -/
theorem find_nomatch_statuses_witness :
    dbJon.users.find? (fun u => u.id == 99) = none ∧
    searchMatches dbJon 0 "zzz" = [] ∧
    (findUsers dbJon 0 (some 99) none = (404, .message "User not found") ∧
     findUsers dbJon 0 none (some "zzz") = (404, .message "No users found") ∧
     findUsers dbJon 0 none none
       = (200, .many ((allExcept dbJon 0).map sanitizeUser))) :=
  ⟨rfl, rfl, find_nomatch_statuses dbJon 0 99 "zzz" rfl rfl⟩

/-- C10: the lookup-by-id mode succeeds for an existing user even when
that user's follower/following documents do not exist, substituting empty
arrays in the 200 response instead of failing. -/
theorem find_by_id_missing_lists (db : DB) (caller uid : Nat) (u : UserDoc)
    (hfind : db.users.find? (fun x => x.id == uid) = some u)
    (hfg : lookupList db.following uid = none)
    (hfr : lookupList db.followers uid = none) :
    findUsers db caller (some uid) none
      = (200, .single (sanitizeUser u) [] [] (getPosts db u)) := by
  simp [findUsers, hfind, followingOf, followersOf, hfg, hfr]

/-- Witness for C10: user 0 exists in the one-user store and has no
follower/following documents. -/
theorem find_by_id_missing_lists_witness :
    dbJon.users.find? (fun x => x.id == 0) = some jonUser ∧
    lookupList dbJon.following 0 = none ∧
    lookupList dbJon.followers 0 = none ∧
    findUsers dbJon 5 (some 0) none
      = (200, .single (sanitizeUser jonUser) [] [] (getPosts dbJon jonUser)) :=
  ⟨rfl, rfl, rfl, find_by_id_missing_lists dbJon 5 0 jonUser rfl rfl rfl⟩
